import Mathlib

/-!
Shallow embedding of the SDN policy controller
(`ryu_flows/ryu_flows.py`, `ryu_flows/ryu_helpers.py`, `ryu_flows/ryu_api.py`):
switch classification, router bootstrap REST client, flow programming and
the allowed-pairs ACL policy engine.
-/

/-! ### String primitives

Python string operations are modelled over `String.data` (a `List Char`)
with structural recursion, mirroring `str.strip`, `str.lower`,
substring containment (`in`), and digit parsing as used by the source.
-/

/-- Python whitespace recognized by `str.strip()` (ASCII subset). -/
def isSpaceChar (c : Char) : Bool :=
  c = ' ' || c = '\t' || c = '\n' || c = '\r' || c = '\x0b' || c = '\x0c'

/-- Python `str.strip()`: remove leading and trailing whitespace. -/
def strip (s : String) : String :=
  ⟨((s.data.dropWhile isSpaceChar).reverse.dropWhile isSpaceChar).reverse⟩

/-- ASCII lower-casing of one character (`str.lower()` on the port names,
which are ASCII in this system). -/
def toLowerAscii (c : Char) : Char :=
  if 'A' ≤ c ∧ c ≤ 'Z' then Char.ofNat (c.toNat + 32) else c

/-- Python `str.lower()` over the whole string. -/
def lowerStr (s : String) : String := ⟨s.data.map toLowerAscii⟩

/-- Does `hay` start with `needle`? -/
def startsWithSeq : List Char → List Char → Bool
  | _, [] => true
  | [], _ :: _ => false
  | h :: hs, n :: ns => h = n && startsWithSeq hs ns

/-- Contiguous-subsequence containment over char lists. -/
def containsSeq : List Char → List Char → Bool
  | hay, needle =>
    startsWithSeq hay needle ||
      match hay with
      | [] => false
      | _ :: t => containsSeq t needle

/-- Python `needle in hay` on strings. -/
def containsSub (hay needle : String) : Bool := containsSeq hay.data needle.data

/-- Value of a decimal digit character. -/
def digitVal (c : Char) : Option Nat :=
  if '0' ≤ c ∧ c ≤ '9' then some (c.toNat - '0'.toNat) else none

/-- Parse a nonempty all-decimal-digit char list into a `Nat`. -/
def parseDecDigits (cs : List Char) : Option Nat :=
  match cs with
  | [] => none
  | _ =>
    cs.foldl (fun acc c =>
      match acc, digitVal c with
      | some a, some v => some (a * 10 + v)
      | _, _ => none) (some 0)

/-- Value of a hexadecimal digit character. -/
def hexDigitVal (c : Char) : Option Nat :=
  if '0' ≤ c ∧ c ≤ '9' then some (c.toNat - '0'.toNat)
  else if 'a' ≤ c ∧ c ≤ 'f' then some (c.toNat - 'a'.toNat + 10)
  else if 'A' ≤ c ∧ c ≤ 'F' then some (c.toNat - 'A'.toNat + 10)
  else none

/-- Python `int(s, 16)` restricted to plain nonempty hex-digit strings
(the DPIDs produced by the topology REST endpoint are exactly of this
form; the extra syntax `int` accepts — signs, `0x`, whitespace — never
occurs there). `None` models the `except: continue` path. -/
def parseHexNat (s : String) : Option Nat :=
  match s.data with
  | [] => none
  | cs =>
    cs.foldl (fun acc c =>
      match acc, hexDigitVal c with
      | some a, some v => some (a * 16 + v)
      | _, _ => none) (some 0)

section EvalCheck
example : strip "  10.0.1.5 " = "10.0.1.5" := by decide
example : lowerStr "VXLan_Sys_4789" = "vxlan_sys_4789" := by decide
example : containsSub "vxlan_sys_4789" "vxlan" = true := by decide
example : containsSub "router1-link" "vxlan" = false := by decide
example : parseHexNat "1a" = some 26 := by decide
example : parseDecDigits "255".data = some 255 := by decide
end EvalCheck

/-! ### JSON values
The REST client receives duck-typed JSON; `J.null` models Python `None`. -/

/-- A JSON value as handled by the tolerant collectors in `ryu_helpers.py`. -/
inductive J where
  | null
  | bool (b : Bool)
  | num (n : Int)
  | str (s : String)
  | arr (items : List J)
  | obj (fields : List (String × J))
  deriving Repr

/-- Python truthiness of a JSON value. -/
def truthy : J → Bool
  | J.null => false
  | J.bool b => b
  | J.num n => n ≠ 0
  | J.str s => s ≠ ""
  | J.arr items => !items.isEmpty
  | J.obj fields => !fields.isEmpty

/-- Python `str(...)` of a JSON value. Exact for scalars; for containers
Python would use their `repr`, which never occurs as an interface address
in this system and which no theorem depends on. -/
def pyStr : J → String
  | J.null => "None"
  | J.bool b => if b then "True" else "False"
  | J.num n => toString n
  | J.str s => s
  | J.arr _ => "<list>"
  | J.obj _ => "<dict>"

/-- Python `int(...)` of a JSON value (`None` models the `except` path). -/
def pyInt : J → Option Int
  | J.num n => some n
  | J.bool b => some (if b then 1 else 0)
  | J.str s =>
    match (strip s).data with
    | '-' :: rest => (parseDecDigits rest).map (fun n => -(n : Int))
    | cs => (parseDecDigits cs).map (fun n => (n : Int))
  | _ => none

/-- First binding of key `k` in a JSON object (Python dicts hold each key
once, so first matches dict lookup). -/
def lookupField (fields : List (String × J)) (k : String) : Option J :=
  match fields with
  | [] => none
  | (k', v) :: rest => if k' = k then some v else lookupField rest k

section EvalCheck2
example : truthy (J.str "") = false := by decide
example : pyInt (J.str " 12 ") = some 12 := by decide
example : lookupField [("port", J.num 1)] "port" = some (J.num 1) := rfl
end EvalCheck2

/-! ### HelperREST (`ryu_helpers.py`)

`_rest_post_json` is modelled over the list of outcomes of its successive
POST attempts (network effects are the environment); `_ensure_interface`
is modelled over the JSON the preceding GET returned.
-/

/-- Outcome of one POST attempt in `_rest_post_json`. -/
inductive PostAttempt where
  | ok
  | httpError (code : Nat)
  | netError
  deriving Repr, DecidableEq

/-- Model of `HelperREST._rest_post_json`: iterate the attempts (`for i in
range(tries)`); a 2xx body returns `True`; an `HTTPError` with code 400
or 409 returns `True` ("already applied"); any other `HTTPError` or
network-level exception moves to the next attempt; exhaustion returns
`False`. -/
def _rest_post_json : List PostAttempt → Bool
  | [] => false
  | a :: rest =>
    match a with
    | PostAttempt.ok => true
    | PostAttempt.httpError code =>
      if code = 400 ∨ code = 409 then true else _rest_post_json rest
    | PostAttempt.netError => _rest_post_json rest

/-- An attempt outcome that `_rest_post_json` retries past: an HTTP error
other than 400/409, or a network-level failure. -/
def retryableFailure : PostAttempt → Bool
  | PostAttempt.ok => false
  | PostAttempt.httpError code => !(code = 400 || code = 409)
  | PostAttempt.netError => true

/-- The item scan of `collect_addrs_with_port` inside
`HelperREST._ensure_interface`, over the elements of a JSON list:
dict items contribute their truthy `address` (stripped) and, when `port`
is present and not `None`, an `(address, port)` pair with the port
normalized through `int(...)` when convertible (kept raw otherwise);
string items contribute their stripped value; other items are ignored. -/
def collectItems : List J → List (String × J) × List String
  | [] => ([], [])
  | it :: rest =>
    let r := collectItems rest
    match it with
    | J.obj fields =>
      match lookupField fields "address" with
      | some av =>
        if truthy av then
          let a := strip (pyStr av)
          let pairs :=
            match lookupField fields "port" with
            | some J.null => []
            | some pv =>
              match pyInt pv with
              | some n => [(a, J.num n)]
              | none => [(a, pv)]
            | none => []
          (pairs ++ r.1, a :: r.2)
        else r
      | none => r
    | J.str s => (r.1, strip s :: r.2)
    | _ => r

/-- First entry for key `k` among the collected fields. -/
def lookupPer (per : List (String × (J × (List (String × J) × List String)))) (k : String) :
    Option (String × (J × (List (String × J) × List String))) :=
  per.find? (fun kc => kc.1 = k)

mutual
/-- Helper `collect_addrs_with_port` of `HelperREST._ensure_interface`: lists are
scanned item-wise; objects are recursed into first through the keys
`addresses`/`interfaces`/`data`/`body` when present, then through every
list- or dict-valued field; scalars contribute nothing. -/
def collectJ : J → List (String × J) × List String
  | J.null => ([], [])
  | J.bool _ => ([], [])
  | J.num _ => ([], [])
  | J.str _ => ([], [])
  | J.arr items => collectItems items
  | J.obj fields =>
    let per := collectFields fields
    let keyed := ["addresses", "interfaces", "data", "body"].foldl
      (fun acc k =>
        match lookupPer per k with
        | some kc => (acc.1 ++ kc.2.2.1, acc.2 ++ kc.2.2.2)
        | none => acc)
      ([], [])
    per.foldl
      (fun acc kc =>
        match kc.2.1 with
        | J.arr _ => (acc.1 ++ kc.2.2.1, acc.2 ++ kc.2.2.2)
        | J.obj _ => (acc.1 ++ kc.2.2.1, acc.2 ++ kc.2.2.2)
        | _ => acc)
      keyed

/-- Each object field paired with its value and that value's collection. -/
def collectFields : List (String × J) → List (String × (J × (List (String × J) × List String)))
  | [] => []
  | (k, v) :: rest => (k, (v, collectJ v)) :: collectFields rest
end

/-- Does the collected pair entry equal the Python tuple
`(address, port_no)` with `port_no` an `int`?  A raw (non-`int`) stored
port can never equal an `int`, matching Python tuple equality. -/
def pairMatches (address : String) (port_no : Int) (entry : String × J) : Bool :=
  entry.1 = address &&
    match entry.2 with
    | J.num n => n = port_no
    | _ => false

/-- The pre-POST check of `HelperREST._ensure_interface`:
`(address, port_no) in have_pairs or address in have_addrs`. -/
def interfacePresent (current : J) (address : String) (port_no : Int) : Bool :=
  let c := collectJ current
  c.1.any (pairMatches address port_no) || c.2.any (fun a => a = address)

/-- Model of `HelperREST._ensure_interface`, given the JSON `current` returned by
the GET of the router's configuration and the outcome `postOk` that a
POST would have: returns `(posted, result)` where `posted` records
whether `_rest_post_json` was invoked. -/
def _ensure_interface (current : J) (port_no : Int) (address : String) (postOk : Bool) :
    Bool × Bool :=
  if interfacePresent current address port_no then (false, true)
  else (true, postOk)

section EvalCheck3
example :
    collectJ (J.arr [J.obj [("address", J.str "10.0.1.254/24"), ("port", J.num 1)]]) =
      ([("10.0.1.254/24", J.num 1)], ["10.0.1.254/24"]) := by
  simp [collectJ, collectItems, lookupField, truthy, pyStr, pyInt, strip]
  decide
example :
    interfacePresent (J.arr [J.obj [("address", J.str "10.0.1.254/24"), ("port", J.num 1)]])
      "10.0.1.254/24" 1 = true := by
  simp [interfacePresent, collectJ, collectItems, lookupField, truthy, pyStr, pyInt, strip,
    pairMatches]
  decide
example :
    collectJ (J.obj [("interfaces", J.arr [J.str " 10.0.2.254/24 "])]) =
      ([], ["10.0.2.254/24", "10.0.2.254/24"]) := by
  simp [collectJ, collectFields, collectItems, lookupPer, lookupField, strip]
  decide
end EvalCheck3

/-! ### IP addresses and the LAN prefixes (`RyuFlows` constants, `HelperPolicy`) -/

/-- Split a char list on `'.'` (Python `s.split('.')` as used by IPv4
parsing). -/
def splitDots : List Char → List (List Char)
  | [] => [[]]
  | c :: rest =>
    let r := splitDots rest
    if c = '.' then [] :: r
    else
      match r with
      | h :: t => (c :: h) :: t
      | [] => [[c]]

/-- One dotted-quad octet: nonempty, all digits, ≤ 255, and no leading
zero (Python's `ipaddress` rejects leading zeros). -/
def parseOctet (cs : List Char) : Option Nat :=
  match parseDecDigits cs with
  | none => none
  | some n =>
    if n ≤ 255 ∧ (cs.length = 1 ∨ cs.headD '0' ≠ '0') then some n else none

/-- Python `ipaddress.ip_address` restricted to IPv4 (returned as the
32-bit value). `ip_address` also parses IPv6 literals, but no IPv6
address can lie in the configured IPv4 LAN prefixes, so for every use in
this system the parse-failure and the not-in-any-LAN outcomes coincide. -/
def ip_address (s : String) : Option Nat :=
  match splitDots s.data with
  | [a, b, c, d] =>
    match parseOctet a, parseOctet b, parseOctet c, parseOctet d with
    | some x, some y, some z, some w => some (((x * 256 + y) * 256 + z) * 256 + w)
    | _, _, _, _ => none
  | _ => none

/-- Constant `LAN1_CIDR = ip_network('10.0.1.0/24')`: the network address. -/
def LAN1_NET : Nat := ((10 * 256 + 0) * 256 + 1) * 256 + 0

/-- Constant `LAN2_CIDR = ip_network('10.0.2.0/24')`: the network address. -/
def LAN2_NET : Nat := ((10 * 256 + 0) * 256 + 2) * 256 + 0

/-- Membership of an address in a `/24` network (both configured LAN
prefixes are `/24`): the top 24 bits agree. -/
def inNet24 (net ip : Nat) : Bool := ip / 256 = net / 256

/-- Membership test `a in LAN1_CIDR`. -/
def inLAN1 (ip : Nat) : Bool := inNet24 LAN1_NET ip

/-- Membership test `a in LAN2_CIDR`. -/
def inLAN2 (ip : Nat) : Bool := inNet24 LAN2_NET ip

/-- Model of `HelperPolicy._both_in_lans`: parse both addresses (any parse failure
returns `False`), then accept same-LAN or cross-LAN combinations. -/
def _both_in_lans (ipA ipB : String) : Bool :=
  match ip_address ipA, ip_address ipB with
  | some a, some b =>
    let in1_a := inLAN1 a
    let in2_a := inLAN2 a
    let in1_b := inLAN1 b
    let in2_b := inLAN2 b
    let same := (in1_a && in1_b) || (in2_a && in2_b)
    let cross := (in1_a && in2_b) || (in2_a && in1_b)
    same || cross
  | _, _ => false

section EvalCheck4
example : ip_address "10.0.1.5" = some 0x0A000105 := by decide
example : ip_address "10.0.01.5" = none := by decide
example : ip_address "10.0.1" = none := by decide
example : ip_address " 10.0.1.5" = none := by decide
example : _both_in_lans "10.0.1.5" "10.0.2.7" = true := by decide
example : _both_in_lans "10.0.1.5" "10.0.1.6" = true := by decide
example : _both_in_lans "10.0.1.5" "10.0.3.7" = false := by decide
example : _both_in_lans "10.0.1.5" "bogus" = false := by decide
end EvalCheck4

/-! ### Flow intents (`RyuFlows.add_flow`, `del_flows_by_cookie`) -/

/-- OpenFlow 1.3 reserved port numbers and constants used by the code. -/
def OFPP_NORMAL : Nat := 0xfffffffa

def OFPP_CONTROLLER : Nat := 0xfffffffd

def OFPP_FLOOD : Nat := 0xfffffffb

def OFPCML_NO_BUFFER : Nat := 0xffff

def ETH_TYPE_IP : Nat := 0x0800

def ETH_TYPE_ARP : Nat := 0x0806

/-- The `RyuFlows` class constants. `PRIO_ALLOW`/`PRIO_DROP`/`PRIO_ARP`
are declared in the source; note that `program_policy_rules` installs its
ALLOW/DROP rules with the literal priorities 80/70 instead of
`PRIO_ALLOW`/`PRIO_DROP`. -/
def PRIO_ALLOW : Nat := 15

def PRIO_DROP : Nat := 20

def PRIO_ARP : Nat := 10

def PRIO_MISS : Nat := 0

def COOKIE_BASE : Nat := 0x2

def COOKIE_POLICY : Nat := 0x0A110ED

def LAN1_CIDR_STR : String := "10.0.1.0/24"

def LAN2_CIDR_STR : String := "10.0.2.0/24"

def LAN1_NETADDR : String := "10.0.1.0"

def LAN2_NETADDR : String := "10.0.2.0"

def LAN_NETMASK : String := "255.255.255.0"

/-- An IPv4 match operand: a host address string or an
`(address, netmask)` pair, exactly the two shapes `OFPMatch` receives. -/
inductive IpSpec where
  | host (addr : String)
  | masked (addr mask : String)
  deriving Repr, DecidableEq

/-- An OpenFlow action as constructed by the code
(`OFPActionOutput(port)` or `OFPActionOutput(port, max_len)`). -/
inductive OFAction where
  | output (port : Nat) (max_len : Option Nat)
  deriving Repr, DecidableEq

/-- An OpenFlow instruction; the code only ever builds
`OFPInstructionActions(OFPIT_APPLY_ACTIONS, actions)`. -/
inductive OFInstruction where
  | applyActions (acts : List OFAction)
  deriving Repr

instance : DecidableEq OFInstruction := fun a b =>
  match a, b with
  | OFInstruction.applyActions x, OFInstruction.applyActions y =>
    if h : x = y then isTrue (by rw [h])
    else isFalse (by intro he; cases he; exact h rfl)

/-- The match fields `OFPMatch` is given anywhere in the code. -/
structure OFMatch where
  eth_type : Option Nat
  ipv4_src : Option IpSpec
  ipv4_dst : Option IpSpec
  arp_tpa : Option IpSpec
  in_port : Option Nat
  eth_src : Option String
  eth_dst : Option String
  deriving Repr, DecidableEq

/-- Match `OFPMatch()` with no criteria (the table-miss match). -/
def matchAll : OFMatch :=
  { eth_type := none, ipv4_src := none, ipv4_dst := none, arp_tpa := none,
    in_port := none, eth_src := none, eth_dst := none }

/-- The flow-modification intent `RyuFlows.add_flow` constructs and sends
(`OFPFlowMod` with `OFPFC_ADD` semantics). -/
structure FlowMod where
  table_id : Nat
  priority : Nat
  matchFields : OFMatch
  instructions : List OFInstruction
  cookie : Nat
  idle_timeout : Nat
  hard_timeout : Nat
  buffer_id : Option Nat
  deriving Repr, DecidableEq

/-- Model of `RyuFlows.add_flow` (the construction of the flow-mod; sending is the
environment's side).  `actions = None` (`none`) yields an *empty*
instruction list — the code comment reads "If actions is None, force
explicit drop without APPLY_ACTIONS" — while any actual list `acts`
(including the empty list) yields one Apply-Actions instruction carrying
`acts`. -/
def add_flow (priority : Nat) (matchFields : OFMatch) (actions : Option (List OFAction))
    (table_id : Nat) (buffer_id : Option Nat) (cookie : Nat)
    (idle_timeout : Nat) (hard_timeout : Nat) : FlowMod :=
  let instructions :=
    match actions with
    | none => []
    | some acts => [OFInstruction.applyActions acts]
  { table_id := table_id, priority := priority, matchFields := matchFields,
    instructions := instructions, cookie := cookie, idle_timeout := idle_timeout,
    hard_timeout := hard_timeout, buffer_id := buffer_id }

/-- The table-miss rule `switch_features_handler` installs at priority
`PRIO_MISS`: `NORMAL` on routers, `CONTROLLER` on access OVS. -/
def table_miss_flow (is_router : Bool) : FlowMod :=
  if is_router then
    add_flow PRIO_MISS matchAll (some [OFAction.output OFPP_NORMAL none]) 0 none 0 0 0
  else
    add_flow PRIO_MISS matchAll
      (some [OFAction.output OFPP_CONTROLLER (some OFPCML_NO_BUFFER)]) 0 none 0 0 0

/-! ### Set-as-list primitives (Python `set` with insertion order) -/

/-- Python `set.add` on a duplicate-free list. -/
def insertSet (l : List Nat) (x : Nat) : List Nat := if x ∈ l then l else l ++ [x]

/-- Python `set.update`. -/
def unionSet (l m : List Nat) : List Nat := m.foldl insertSet l

/-- Python `sorted(...)` of a list of DPIDs (insertion sort, structural). -/
def insertSorted (a : Nat) : List Nat → List Nat
  | [] => [a]
  | b :: t => if a ≤ b then a :: b :: t else b :: insertSorted a t

def sortNat (l : List Nat) : List Nat := l.foldr insertSorted []

/-! ### PolicyEngine (`RyuFlows.program_policy_rules`) -/

/-- The controller state consulted by `program_policy_rules`:
`allowed_pairs` (a set of tuples, modelled as lists of strings so that
the wrong-length guard is meaningful), the classification sets, and the
DPIDs that currently have a live datapath in `self.datapaths`. -/
structure PolicyState where
  allowed_pairs : List (List String)
  router_dpids : List Nat
  all_dpids : List Nat
  datapaths : List Nat
  deriving Repr, DecidableEq

/-- A message `program_policy_rules` sends to a switch: the cookie-scoped
bulk delete (`del_flows_by_cookie`) or a flow-mod (`add_flow`). -/
inductive OFMsg where
  | flowDelByCookie (dpid : Nat) (cookie : Nat)
  | flowMod (dpid : Nat) (fm : FlowMod)
  deriving Repr, DecidableEq

/-- The pair normalization loop at the top of `program_policy_rules`:
skip falsy or non-2-tuples, strip both components, keep the pair only
when `_both_in_lans` accepts it. -/
def normalize_pairs (allowed_pairs : List (List String)) : List (String × String) :=
  allowed_pairs.foldl
    (fun pairs pair =>
      match pair with
      | [a0, b0] =>
        let a := strip a0
        let b := strip b0
        if _both_in_lans a b then pairs ++ [(a, b)] else pairs
      | _ => pairs)
    []

/-- The ALLOW rule for one accepted pair: priority 80, match
`eth_type=IP, ipv4_src, ipv4_dst`, action `OUTPUT:NORMAL`, policy cookie. -/
def allow_flow (pr : String × String) : FlowMod :=
  add_flow 80
    { matchAll with eth_type := some ETH_TYPE_IP,
                    ipv4_src := some (IpSpec.host pr.1),
                    ipv4_dst := some (IpSpec.host pr.2) }
    (some [OFAction.output OFPP_NORMAL none]) 0 none COOKIE_POLICY 0 0

/-- The LAN1→LAN2 cross-LAN DROP rule: priority 70, `actions=[]`. -/
def drop12_flow : FlowMod :=
  add_flow 70
    { matchAll with eth_type := some ETH_TYPE_IP,
                    ipv4_src := some (IpSpec.masked LAN1_NETADDR LAN_NETMASK),
                    ipv4_dst := some (IpSpec.masked LAN2_NETADDR LAN_NETMASK) }
    (some []) 0 none COOKIE_POLICY 0 0

/-- The LAN2→LAN1 cross-LAN DROP rule: priority 70, `actions=[]`. -/
def drop21_flow : FlowMod :=
  add_flow 70
    { matchAll with eth_type := some ETH_TYPE_IP,
                    ipv4_src := some (IpSpec.masked LAN2_NETADDR LAN_NETMASK),
                    ipv4_dst := some (IpSpec.masked LAN1_NETADDR LAN_NETMASK) }
    (some []) 0 none COOKIE_POLICY 0 0

/-- The per-target body of the `for dpid in sorted(targets)` loop:
skip a DPID with no live datapath; flush the policy cookie; routers get
nothing further; access OVS get one ALLOW per pair then the two DROPs. -/
def policy_msgs_for_dpid (st : PolicyState) (pairs : List (String × String)) (dpid : Nat) :
    List OFMsg :=
  if dpid ∈ st.datapaths then
    OFMsg.flowDelByCookie dpid COOKIE_POLICY ::
      (if dpid ∈ st.router_dpids then []
       else
        pairs.map (fun pr => OFMsg.flowMod dpid (allow_flow pr)) ++
          [OFMsg.flowMod dpid drop12_flow, OFMsg.flowMod dpid drop21_flow])
  else []

/-- Target selection `targets = dpids or list(self.router_dpids | (self.all_dpids -
self.router_dpids))`. -/
def default_targets (st : PolicyState) : List Nat :=
  unionSet st.router_dpids (st.all_dpids.filter (fun d => d ∉ st.router_dpids))

/-- Model of `RyuFlows.program_policy_rules`, as the list of messages it sends. -/
def program_policy_rules (st : PolicyState) (dpids : Option (List Nat)) : List OFMsg :=
  let targets :=
    match dpids with
    | some l => if l.isEmpty then default_targets st else l
    | none => default_targets st
  if targets.isEmpty then []
  else (sortNat targets).flatMap (policy_msgs_for_dpid st (normalize_pairs st.allowed_pairs))

/-- An installed policy ALLOW rule: policy cookie and a nonempty
Apply-Actions action list. -/
def isPolicyAllow (fm : FlowMod) : Bool :=
  fm.cookie = COOKIE_POLICY &&
    match fm.instructions with
    | [OFInstruction.applyActions (_ :: _)] => true
    | _ => false

/-- An installed policy DROP rule: policy cookie and a single
Apply-Actions instruction with the empty action list. -/
def isPolicyDrop (fm : FlowMod) : Bool :=
  fm.cookie = COOKIE_POLICY &&
    match fm.instructions with
    | [OFInstruction.applyActions []] => true
    | _ => false

/-! ### Allowed-pairs updates (`RyuFlows.update_allowed_pairs`,
`RyuApi.add_allowed_pair`) -/

/-- Python `set.add` for pair entries. -/
def insertPairSet (l : List (String × String)) (p : String × String) :
    List (String × String) :=
  if p ∈ l then l else l ++ [p]

/-- Model of `RyuFlows.update_allowed_pairs`: normalize the incoming iterable into
the new `allowed_pairs` set — skip falsy or non-2-tuples, strip both
components, insert. (The subsequent `program_policy_rules()` call is
modelled separately.) -/
def update_allowed_pairs (new_pairs : List (List String)) : List (String × String) :=
  new_pairs.foldl
    (fun normalized pair =>
      match pair with
      | [a0, b0] => insertPairSet normalized (strip a0, strip b0)
      | _ => normalized)
    []

/-- Model of `RyuApi.add_allowed_pair` (POST `/pair`): returns the HTTP status and
the resulting `allowed_pairs` set. Missing `src`/`dst` default to `''`;
empty (after strip) values are rejected with 400; an existing pair
answers 200 without reprogramming; otherwise the pair is added and
`update_allowed_pairs` is invoked on the enlarged set. -/
def add_allowed_pair (src dst : Option String) (current : List (String × String)) :
    Nat × List (String × String) :=
  let src_ip := strip (src.getD "")
  let dst_ip := strip (dst.getD "")
  if src_ip = "" ∨ dst_ip = "" then (400, current)
  else
    let pair := (src_ip, dst_ip)
    if pair ∈ current then (200, current)
    else
      (200, update_allowed_pairs ((insertPairSet current pair).map (fun q => [q.1, q.2])))

section EvalCheck5
example :
    update_allowed_pairs [["", "10.0.1.5"], [" 10.0.1.5 ", "10.0.2.7"], ["x"]] =
      [("", "10.0.1.5"), ("10.0.1.5", "10.0.2.7")] := by decide
example : normalize_pairs [["10.0.1.5", "10.0.2.7"], ["10.0.1.5", "bogus"]] =
    [("10.0.1.5", "10.0.2.7")] := by decide
end EvalCheck5

/-! ### TopologyClassifier (`RyuFlows.get_router_dpids`) -/

/-- One port descriptor from `GET /stats/portdesc/{dpid}`:
`str(p.get('name',''))` (pre-lowering), `p.get('port_no')` and
`p.get('hw_addr')` with `None` for absent keys. -/
structure PortEntry where
  name : String
  port_no : Option Int
  hw_addr : Option String
  deriving Repr, DecidableEq

/-- The environment of one `get_router_dpids` invocation: the body of
`GET /v1.0/topology/switches` (the per-switch hex `dpid` strings; `[]`
models the query failing and falling back to `default=[]`), and the
`GET /stats/portdesc/{dpid}` bodies keyed by integer DPID (a missing key
models that GET failing or lacking the `str(dpid)` entry, yielding `[]`). -/
structure TopoView where
  sws : List String
  portdesc : List (Nat × List PortEntry)
  deriving Repr, DecidableEq

/-- Lookup `stat_port.get(str(dpid_int), [])` after the portdesc GET. -/
def lookupPorts (portdesc : List (Nat × List PortEntry)) (dpid : Nat) : List PortEntry :=
  match portdesc.find? (fun e => e.1 = dpid) with
  | some e => e.2
  | none => []

/-- The classification state `get_router_dpids` reads and writes. -/
structure ClassState where
  all_dpids : List Nat
  router_dpids : List Nat
  router_names : List (Nat × String)
  bootstrapped : List Nat
  deriving Repr, DecidableEq

/-- The `for sw in sws` loop: parse the hex DPID (`continue` on failure),
accumulate it, and classify it as router iff any lowered port name
contains `'vxlan'`. -/
def scan_switches (view : TopoView) : List Nat × List Nat :=
  view.sws.foldl
    (fun acc sw =>
      match parseHexNat sw with
      | none => acc
      | some dpid_int =>
        let all := insertSet acc.1 dpid_int
        let ports := lookupPorts view.portdesc dpid_int
        let names := ports.map (fun p => lowerStr p.name)
        let has_vx := names.any (fun n => containsSub n "vxlan")
        (all, if has_vx then insertSet acc.2 dpid_int else acc.2))
    ([], [])

/-- The `for r in sorted(self.router_dpids)` loop: spawn
`bootstrap_router(r)` for every router not yet in `_bootstrapped`,
recording it. Returns the new `_bootstrapped` set and the spawned DPIDs
in order. -/
def spawn_loop (bootstrapped : List Nat) (routers_sorted : List Nat) :
    List Nat × List Nat :=
  routers_sorted.foldl
    (fun acc r => if r ∈ acc.1 then acc else (acc.1 ++ [r], acc.2 ++ [r]))
    (bootstrapped, [])

/-- Model of `RyuFlows.get_router_dpids`: returns the new state together with the
DPIDs for which a `bootstrap_router` task was spawned. `self.all_dpids`
is *updated* (union) while `self.router_dpids` and `self.router_names`
are *replaced* by what this query produced. -/
def get_router_dpids (st : ClassState) (view : TopoView) : ClassState × List Nat :=
  let scan := scan_switches view
  let all' := unionSet st.all_dpids scan.1
  let routers := scan.2
  let sp := spawn_loop st.bootstrapped (sortNat routers)
  let names := (sortNat routers).enum.map (fun p => (p.2, "router" ++ Nat.repr (p.1 + 1)))
  ({ all_dpids := all', router_dpids := routers, router_names := names,
     bootstrapped := sp.1 }, sp.2)

/-- Repeated invocations of `get_router_dpids` (one per topology or
feature event), collecting every spawned bootstrap task. -/
def run_classifications (st : ClassState) (views : List TopoView) :
    ClassState × List Nat :=
  views.foldl
    (fun acc v =>
      let r := get_router_dpids acc.1 v
      (r.1, acc.2 ++ r.2))
    (st, [])

/-! ### HelperDatapath (`_discover_router_ports`) -/

/-- The local variables of the `for p in entries` loop in
`_discover_router_ports`. -/
structure DiscoverAcc where
  lan_no : Option Int
  lan_mac : Option String
  lan_cidr : Option String
  vx_no : Option Int
  deriving Repr, DecidableEq

/-- The record `_discover_router_ports` returns. -/
structure RouterPorts where
  lan_no : Option Int
  lan_mac : Option String
  vx_no : Option Int
  lan_cidr : Option String
  deriving Repr, DecidableEq

/-- One iteration of the port scan in `_discover_router_ports`. -/
def discover_step (acc : DiscoverAcc) (p : PortEntry) : DiscoverAcc :=
  let lname := lowerStr p.name
  let acc := if containsSub lname "vxlan" then { acc with vx_no := p.port_no } else acc
  let acc :=
    if containsSub lname "router" && containsSub lname "link" then
      { lan_no := p.port_no, lan_mac := p.hw_addr,
        lan_cidr :=
          if containsSub lname "1" then some LAN1_CIDR_STR
          else if containsSub lname "2" then some LAN2_CIDR_STR
          else acc.lan_cidr,
        vx_no := acc.vx_no }
    else acc
  let acc :=
    if lname = "router1-link" || lname = "lan1" then
      { acc with lan_no := p.port_no, lan_mac := p.hw_addr, lan_cidr := some LAN1_CIDR_STR }
    else acc
  let acc :=
    if lname = "router2-link" || lname = "lan2" then
      { acc with lan_no := p.port_no, lan_mac := p.hw_addr, lan_cidr := some LAN2_CIDR_STR }
    else acc
  acc

/-- Model of `HelperDatapath._discover_router_ports` over the port descriptors the
REST call returned (empty list models both the failed GET and the
missing `str(dpid)` key). -/
def _discover_router_ports (entries : List PortEntry) : Option RouterPorts :=
  if entries.isEmpty then none
  else
    let a := entries.foldl discover_step
      { lan_no := none, lan_mac := none, lan_cidr := none, vx_no := none }
    if a.lan_no = none ∨ a.vx_no = none ∨ a.lan_cidr = none then none
    else some { lan_no := a.lan_no, lan_mac := a.lan_mac, vx_no := a.vx_no,
                lan_cidr := a.lan_cidr }

section EvalCheck6
example :
    get_router_dpids
      { all_dpids := [1], router_dpids := [1], router_names := [(1, "router1")],
        bootstrapped := [1] }
      { sws := [], portdesc := [] } =
    ({ all_dpids := [1], router_dpids := [], router_names := [], bootstrapped := [1] }, []) := by
  decide
example :
    (get_router_dpids
      { all_dpids := [], router_dpids := [], router_names := [], bootstrapped := [] }
      { sws := ["2", "1"],
        portdesc := [(1, [{ name := "VXLan0", port_no := some 10, hw_addr := none }]),
                     (2, [{ name := "eth0", port_no := some 1, hw_addr := none }])] }).1 =
    { all_dpids := [2, 1], router_dpids := [1], router_names := [(1, "router1")],
      bootstrapped := [1] } := by decide
example :
    _discover_router_ports
      [{ name := "router1-link", port_no := some 3, hw_addr := none },
       { name := "vxlan0", port_no := some 10, hw_addr := none }] =
    some { lan_no := some 3, lan_mac := none, vx_no := some 10,
           lan_cidr := some LAN1_CIDR_STR } := by decide
end EvalCheck6

/-! ### Claim theorems -/

/-- Claim **C4** (counterexample): the claim states that `add_flow` with
`actions = None` constructs a flow-mod with an explicit no-action (drop)
instruction and "never an empty instruction list"; in fact the
constructed flow-mod's instruction list is empty (`instructions = []`),
as at the concrete call below. -/
theorem C4_counterexample :
    (add_flow 70 matchAll none 0 none COOKIE_POLICY 0 0).instructions = [] := rfl

/-- Claim **C4** (amended): for every call of `add_flow` with `actions = None`,
the constructed flow-modification message has an *empty* instruction
list (no instruction at all); the explicit empty Apply-Actions drop
instruction is produced by `actions = []`, which is the form the DROP
rules use. -/
theorem C4_amended_none_yields_empty_instructions
    (priority : Nat) (m : OFMatch) (table_id : Nat) (buffer_id : Option Nat)
    (cookie idle hard : Nat) :
    (add_flow priority m none table_id buffer_id cookie idle hard).instructions = [] := rfl

/-- Claim **C10**: `add_flow` distinguishes `actions = []` from
`actions = None`: the former yields exactly one Apply-Actions instruction
with an empty action list — the form the cross-LAN DROP rules
`drop12_flow`/`drop21_flow` of `program_policy_rules` carry — while the
latter yields an empty instruction list. -/
theorem C10_add_flow_empty_vs_none
    (priority : Nat) (m : OFMatch) (table_id : Nat) (buffer_id : Option Nat)
    (cookie idle hard : Nat) :
    (add_flow priority m (some []) table_id buffer_id cookie idle hard).instructions =
        [OFInstruction.applyActions []] ∧
      (add_flow priority m none table_id buffer_id cookie idle hard).instructions = [] ∧
      drop12_flow.instructions = [OFInstruction.applyActions []] ∧
      drop21_flow.instructions = [OFInstruction.applyActions []] :=
  ⟨rfl, rfl, rfl, rfl⟩

/-- Claim **C5**: `_rest_post_json` returns `True` whenever an attempt receives
HTTP 400 or 409 (first conjunct: immediately on such a response), and it
returns `False` exactly when every attempt in the bounded sequence is a
retryable failure (an HTTP error other than 400/409 or a network-level
failure) — i.e. failure is reported only on retry exhaustion. -/
theorem C5_post_json_classification :
    (∀ (code : Nat) (rest : List PostAttempt), code = 400 ∨ code = 409 →
        _rest_post_json (PostAttempt.httpError code :: rest) = true) ∧
      ∀ attempts : List PostAttempt,
        _rest_post_json attempts = false ↔ ∀ a ∈ attempts, retryableFailure a = true := by
  constructor
  · intro code rest h
    simp [_rest_post_json, h]
  · intro attempts
    induction attempts with
    | nil => simp [_rest_post_json]
    | cons a rest ih =>
      cases a with
      | ok => simp [_rest_post_json, retryableFailure]
      | httpError code =>
        by_cases h : code = 400 ∨ code = 409
        · have hres : _rest_post_json (PostAttempt.httpError code :: rest) = true := by
            simp [_rest_post_json, h]
          have hretry : retryableFailure (PostAttempt.httpError code) = false := by
            rcases h with h | h <;> simp [retryableFailure, h]
          rw [hres]
          constructor
          · intro hfalse; exact absurd hfalse (by simp)
          · intro hall
            have hc := hall (PostAttempt.httpError code) (List.mem_cons_self _ _)
            rw [hretry] at hc
            exact absurd hc (by simp)
        · have hretry : retryableFailure (PostAttempt.httpError code) = true := by
            push_neg at h
            simp [retryableFailure, h.1, h.2]
          have hres : _rest_post_json (PostAttempt.httpError code :: rest) =
              _rest_post_json rest := by
            simp [_rest_post_json, h]
          rw [hres, ih]
          constructor
          · intro hall a ha
            rcases List.mem_cons.mp ha with rfl | ha
            · exact hretry
            · exact hall a ha
          · intro hall a ha
            exact hall a (List.mem_cons_of_mem _ ha)
      | netError => simp [_rest_post_json, retryableFailure, ih]

/-- Claim **C5** (witness): HTTP 409 on the first attempt is reported as
success; three network failures exhaust the retries and report failure. -/
theorem C5_witness :
    _rest_post_json [PostAttempt.httpError 409] = true ∧
      _rest_post_json [PostAttempt.netError, PostAttempt.netError, PostAttempt.netError] =
        false :=
  ⟨C5_post_json_classification.1 409 [] (Or.inr rfl),
   (C5_post_json_classification.2
      [PostAttempt.netError, PostAttempt.netError, PostAttempt.netError]).mpr
     (by decide)⟩

/-- Claim **C6** (counterexample): the claim states every returned
`RouterPorts` record has all four fields populated. The final check of
`_discover_router_ports` tests `lan_no`, `vx_no` and `lan_cidr` but not
`lan_mac`: port descriptors naming the LAN port but lacking `hw_addr`
yield a record with `lan_mac = None`. -/
theorem C6_counterexample :
    _discover_router_ports
        [{ name := "router1-link", port_no := some 3, hw_addr := none },
         { name := "vxlan0", port_no := some 10, hw_addr := none }] =
      some { lan_no := some 3, lan_mac := none, vx_no := some 10,
             lan_cidr := some LAN1_CIDR_STR } := by decide

/-- Claim **C6** (amended): whenever `_discover_router_ports` returns a record,
its `lan_no`, `vx_no` and `lan_cidr` fields are populated (non-`None`) —
when any of *these three* cannot be discovered the function returns
`None` rather than a partial record — but `lan_mac` is not checked and
may be `None` in a returned record. -/
theorem C6_amended_three_fields_populated (entries : List PortEntry) (r : RouterPorts)
    (h : _discover_router_ports entries = some r) :
    r.lan_no ≠ none ∧ r.vx_no ≠ none ∧ r.lan_cidr ≠ none := by
  unfold _discover_router_ports at h
  by_cases he : entries.isEmpty
  · simp [he] at h
  · simp only [he, if_false] at h
    set a := entries.foldl discover_step
      { lan_no := none, lan_mac := none, lan_cidr := none, vx_no := none } with ha
    by_cases hc : a.lan_no = none ∨ a.vx_no = none ∨ a.lan_cidr = none
    · simp [hc] at h
    · push_neg at hc
      simp only [hc, if_false] at h
      have : r = { lan_no := a.lan_no, lan_mac := a.lan_mac, vx_no := a.vx_no,
                   lan_cidr := a.lan_cidr } := by
        cases h
        rfl
      rw [this]
      exact ⟨hc.1, hc.2.1, hc.2.2⟩

/-- Claim **C6** (witness): a complete descriptor set produces a record whose
three checked fields are populated. -/
theorem C6_witness :
    _discover_router_ports
        [{ name := "router2-link", port_no := some 4, hw_addr := some "aa:bb:cc:dd:ee:02" },
         { name := "vxlan0", port_no := some 11, hw_addr := none }] =
      some { lan_no := some 4, lan_mac := some "aa:bb:cc:dd:ee:02", vx_no := some 11,
             lan_cidr := some LAN2_CIDR_STR } ∧
      ((some 4 : Option Int) ≠ none ∧ (some 11 : Option Int) ≠ none ∧
        (some LAN2_CIDR_STR : Option String) ≠ none) := by
  constructor
  · decide
  · exact C6_amended_three_fields_populated
      [{ name := "router2-link", port_no := some 4, hw_addr := some "aa:bb:cc:dd:ee:02" },
       { name := "vxlan0", port_no := some 11, hw_addr := none }]
      { lan_no := some 4, lan_mac := some "aa:bb:cc:dd:ee:02", vx_no := some 11,
        lan_cidr := some LAN2_CIDR_STR } (by decide)

/-- Membership after a `set.add` step. -/
theorem mem_insertPairSet {p q : String × String} {l : List (String × String)}
    (h : p ∈ insertPairSet l q) : p ∈ l ∨ p = q := by
  unfold insertPairSet at h
  by_cases hq : q ∈ l
  · simp [hq] at h
    exact Or.inl h
  · simp [hq] at h
    exact h

/-- Every pair in the normalization fold of `update_allowed_pairs` is in
the seed accumulator or is the trimmed image of a length-2 input. -/
theorem update_pairs_fold_mem (a b : String) :
    ∀ (new_pairs : List (List String)) (acc : List (String × String)),
      (a, b) ∈ new_pairs.foldl
          (fun normalized pair =>
            match pair with
            | [a0, b0] => insertPairSet normalized (strip a0, strip b0)
            | _ => normalized) acc →
        (a, b) ∈ acc ∨ ∃ x y, [x, y] ∈ new_pairs ∧ a = strip x ∧ b = strip y := by
  intro new_pairs
  induction new_pairs with
  | nil => intro acc h; exact Or.inl (by simpa using h)
  | cons p rest ih =>
    intro acc h
    rw [List.foldl_cons] at h
    rcases p with - | ⟨x0, - | ⟨y0, - | ⟨z0, t0⟩⟩⟩
    · rcases ih _ h with hin | ⟨x, y, hxy, hx, hy⟩
      · exact Or.inl hin
      · exact Or.inr ⟨x, y, List.mem_cons_of_mem _ hxy, hx, hy⟩
    · rcases ih _ h with hin | ⟨x, y, hxy, hx, hy⟩
      · exact Or.inl hin
      · exact Or.inr ⟨x, y, List.mem_cons_of_mem _ hxy, hx, hy⟩
    · rcases ih _ h with hin | ⟨x, y, hxy, hx, hy⟩
      · rcases mem_insertPairSet hin with hacc | heq
        · exact Or.inl hacc
        · exact Or.inr ⟨x0, y0, List.mem_cons_self _ _,
            congrArg Prod.fst heq, congrArg Prod.snd heq⟩
      · exact Or.inr ⟨x, y, List.mem_cons_of_mem _ hxy, hx, hy⟩
    · rcases ih _ h with hin | ⟨x, y, hxy, hx, hy⟩
      · exact Or.inl hin
      · exact Or.inr ⟨x, y, List.mem_cons_of_mem _ hxy, hx, hy⟩

/-- Claim **C9** (counterexample): the claim states `update_allowed_pairs`
inserts no entry for a pair whose trimmed component is empty; in fact a
pair with an empty source survives normalization and is stored. -/
theorem C9_counterexample :
    ("", "10.0.1.5") ∈ update_allowed_pairs [["", "10.0.1.5"]] := by decide

/-- Claim **C9** (amended): every entry stored by `update_allowed_pairs` is the
whitespace-trimmed image of some length-2 input pair (falsy or
wrong-length tuples are skipped), but emptiness after trimming is *not*
rejected there — that rejection happens only in the REST endpoint
`add_allowed_pair`, which answers 400 and leaves the set unchanged when
the trimmed `src` or `dst` is empty. -/
theorem C9_amended_entries_trimmed_rest_rejects_empty :
    (∀ (new_pairs : List (List String)) (a b : String),
        (a, b) ∈ update_allowed_pairs new_pairs →
          ∃ x y, [x, y] ∈ new_pairs ∧ a = strip x ∧ b = strip y) ∧
      ∀ (src dst : Option String) (current : List (String × String)),
        strip (src.getD "") = "" ∨ strip (dst.getD "") = "" →
          add_allowed_pair src dst current = (400, current) := by
  constructor
  · intro new_pairs a b hmem
    rcases update_pairs_fold_mem a b new_pairs [] hmem with hin | hex
    · simp at hin
    · exact hex
  · intro src dst current h
    unfold add_allowed_pair
    rcases h with h | h <;> simp [h]

/-- Claim **C9** (witness): a stored entry traced back to its trimmed input,
and the REST-level rejection of an empty (all-whitespace) source. -/
theorem C9_witness :
    (∃ x y, [x, y] ∈ [[" 10.0.1.5 ", "10.0.2.7"]] ∧
        "10.0.1.5" = strip x ∧ "10.0.2.7" = strip y) ∧
      add_allowed_pair (some " ") (some "10.0.2.7") [] = (400, []) :=
  ⟨C9_amended_entries_trimmed_rest_rejects_empty.1 [[" 10.0.1.5 ", "10.0.2.7"]]
      "10.0.1.5" "10.0.2.7" (by decide),
   C9_amended_entries_trimmed_rest_rejects_empty.2 (some " ") (some "10.0.2.7") []
      (Or.inl (by decide))⟩

/-- Claim **C3** (counterexample): the claim states that when the topology
query fails (`sws` is only the default `[]`), `get_router_dpids` leaves
the stored router DPID set, router names and role assignments unchanged.
In fact, starting from a state that knows router 1, a failed query
*clears* `router_dpids` and `router_names`. -/
theorem C3_counterexample :
    get_router_dpids
        { all_dpids := [1], router_dpids := [1], router_names := [(1, "router1")],
          bootstrapped := [1] }
        { sws := [], portdesc := [] } =
      ({ all_dpids := [1], router_dpids := [], router_names := [],
         bootstrapped := [1] }, []) := by decide

/-- Claim **C3** (amended): when the topology query fails (the switch list is
only the default `[]`), `get_router_dpids` leaves `all_dpids` and
`_bootstrapped` unchanged and spawns nothing, but it *resets*
`router_dpids` and `router_names` to empty — the previous classification
is lost, not preserved. -/
theorem C3_amended_failure_resets_classification (st : ClassState)
    (portdesc : List (Nat × List PortEntry)) :
    get_router_dpids st { sws := [], portdesc := portdesc } =
      ({ all_dpids := st.all_dpids, router_dpids := [], router_names := [],
         bootstrapped := st.bootstrapped }, []) := by
  unfold get_router_dpids scan_switches spawn_loop unionSet sortNat
  simp [List.foldl_nil]

/-- Claim **C2**: the policy filter `_both_in_lans` accepts a pair if and only
if both strings parse as IP addresses and each lies in one of the two
configured LAN prefixes (same-LAN and cross-LAN pairs are both
accepted); in particular a malformed address makes the filter return
`False` — the pair is silently dropped, no error propagates. -/
theorem C2_pair_filter_iff (a b : String) :
    _both_in_lans a b = true ↔
      ((∃ x, ip_address a = some x ∧ (inLAN1 x = true ∨ inLAN2 x = true)) ∧
       (∃ y, ip_address b = some y ∧ (inLAN1 y = true ∨ inLAN2 y = true))) := by
  unfold _both_in_lans
  cases ha : ip_address a <;> cases hb : ip_address b
  · simp
  · simp
  · simp
  · rename_i x y
    simp only [Option.some.injEq]
    constructor
    · intro h
      cases h1a : inLAN1 x <;> cases h2a : inLAN2 x <;> cases h1b : inLAN1 y <;>
        cases h2b : inLAN2 y <;> simp_all
    · rintro ⟨⟨x', hx', hx⟩, ⟨y', hy', hy⟩⟩
      cases hx'
      cases hy'
      cases h1a : inLAN1 x <;> cases h2a : inLAN2 x <;> cases h1b : inLAN1 y <;>
        cases h2b : inLAN2 y <;> simp_all

/-- Claim **C7**: if the GET of the router's current configuration already
contains the requested interface — the exact `(address, port)` pair or
the address alone (`interfacePresent`) — then `_ensure_interface` sends
no POST and returns `True`; consequently, calling it twice with
identical `(port, address)` where the first GET lacks the interface and
the second GET (reflecting the first POST) contains it sends exactly one
POST in total. -/
theorem C7_ensure_interface_idempotent (cur1 cur2 : J) (port : Int) (addr : String)
    (ok1 ok2 : Bool)
    (h1 : interfacePresent cur1 addr port = false)
    (h2 : interfacePresent cur2 addr port = true) :
    _ensure_interface cur2 port addr ok2 = (false, true) ∧
      ((_ensure_interface cur1 port addr ok1).1.toNat +
        (_ensure_interface cur2 port addr ok2).1.toNat = 1) := by
  unfold _ensure_interface
  rw [h1, h2]
  simp

/-- Claim **C7** (witness): the first GET returns an empty interface list, the
second reflects the POSTed `{address, port}` entry; exactly one POST. -/
theorem C7_witness :
    _ensure_interface
        (J.arr [J.obj [("address", J.str "10.0.1.254/24"), ("port", J.num 1)]])
        1 "10.0.1.254/24" true = (false, true) ∧
      ((_ensure_interface (J.arr []) 1 "10.0.1.254/24" true).1.toNat +
        (_ensure_interface
          (J.arr [J.obj [("address", J.str "10.0.1.254/24"), ("port", J.num 1)]])
          1 "10.0.1.254/24" true).1.toNat = 1) := by
  apply C7_ensure_interface_idempotent
  · simp [interfacePresent, collectJ, collectItems]
  · simp [interfacePresent, collectJ, collectItems, lookupField, truthy, pyStr, pyInt,
      pairMatches]
    decide

/-- The `spawn_loop` fold, generalized over both accumulators: the spawn
count of `d` grows by one exactly when `d` is not yet bootstrapped and
occurs in the scanned router list, and the bootstrapped set afterwards is
the union. -/
theorem spawn_fold_spec (d : Nat) :
    ∀ (rs B s : List Nat),
      (rs.foldl (fun acc r => if r ∈ acc.1 then acc else (acc.1 ++ [r], acc.2 ++ [r]))
          (B, s)).2.count d =
          s.count d + (if d ∈ B then 0 else if d ∈ rs then 1 else 0) ∧
        (d ∈ (rs.foldl
            (fun acc r => if r ∈ acc.1 then acc else (acc.1 ++ [r], acc.2 ++ [r]))
            (B, s)).1 ↔ d ∈ B ∨ d ∈ rs) := by
  intro rs
  induction rs with
  | nil => intro B s; simp
  | cons r rs ih =>
    intro B s
    rw [List.foldl_cons]
    by_cases hr : r ∈ B
    · simp only [hr, if_true]
      obtain ⟨ihc, ihm⟩ := ih B s
      constructor
      · rw [ihc]
        by_cases hdB : d ∈ B
        · simp [hdB]
        · have hdr : d ≠ r := fun he => hdB (he ▸ hr)
          simp [hdB, List.mem_cons, hdr]
      · rw [ihm]
        constructor
        · rintro (h | h)
          · exact Or.inl h
          · exact Or.inr (List.mem_cons_of_mem _ h)
        · rintro (h | h)
          · exact Or.inl h
          · rcases List.mem_cons.mp h with rfl | h
            · exact Or.inl hr
            · exact Or.inr h
    · simp only [hr, if_false]
      obtain ⟨ihc, ihm⟩ := ih (B ++ [r]) (s ++ [r])
      constructor
      · rw [ihc, List.count_append]
        by_cases hdB : d ∈ B
        · have hdr : d ≠ r := fun he => hr (he ▸ hdB)
          have : d ∈ B ++ [r] := List.mem_append_left _ hdB
          simp [hdB, this, List.count_cons, hdr]
        · by_cases hde : d = r
          · have hmem : d ∈ B ++ [r] := by
              rw [hde]
              exact List.mem_append_right _ (List.mem_singleton.mpr rfl)
            have hcount : ([r] : List Nat).count d = 1 := by
              rw [hde]
              simp
            simp [hdB, hr, hmem, hcount, List.mem_cons, hde]
          · have : d ∉ B ++ [r] := by
              intro hmem
              rcases List.mem_append.mp hmem with h | h
              · exact hdB h
              · exact hde (List.mem_singleton.mp h)
            simp [hdB, this, List.count_cons, hde, List.mem_cons]
      · rw [ihm]
        constructor
        · rintro (h | h)
          · rcases List.mem_append.mp h with h | h
            · exact Or.inl h
            · exact Or.inr (List.mem_cons.mpr (Or.inl (List.mem_singleton.mp h)))
          · exact Or.inr (List.mem_cons_of_mem _ h)
        · rintro (h | h)
          · exact Or.inl (List.mem_append_left _ h)
          · rcases List.mem_cons.mp h with rfl | h
            · exact Or.inl (List.mem_append_right _ (List.mem_singleton.mpr rfl))
            · exact Or.inr h

/-- Per-invocation spawn behaviour of `get_router_dpids`. -/
theorem get_router_dpids_spawn_spec (st : ClassState) (v : TopoView) (d : Nat) :
    (get_router_dpids st v).2.count d =
        (if d ∈ st.bootstrapped then 0
         else if d ∈ sortNat (scan_switches v).2 then 1 else 0) ∧
      (d ∈ (get_router_dpids st v).1.bootstrapped ↔
        d ∈ st.bootstrapped ∨ d ∈ sortNat (scan_switches v).2) := by
  obtain ⟨hc, hm⟩ := spawn_fold_spec d (sortNat (scan_switches v).2) st.bootstrapped []
  unfold get_router_dpids spawn_loop
  constructor
  · simpa using hc
  · simpa using hm

/-- The classification-run fold, generalized over the accumulated spawn
list: a bootstrapped DPID is never spawned, and any DPID is spawned at
most once beyond the accumulator. -/
theorem run_fold_count (d : Nat) :
    ∀ (views : List TopoView) (st : ClassState) (s : List Nat),
      (d ∈ st.bootstrapped →
        (views.foldl (fun acc v =>
            let r := get_router_dpids acc.1 v
            (r.1, acc.2 ++ r.2)) (st, s)).2.count d = s.count d) ∧
      (views.foldl (fun acc v =>
          let r := get_router_dpids acc.1 v
          (r.1, acc.2 ++ r.2)) (st, s)).2.count d ≤
        s.count d + (if d ∈ st.bootstrapped then 0 else 1) := by
  intro views
  induction views with
  | nil =>
    intro st s
    constructor
    · intro _; simp
    · simp
  | cons v views ih =>
    intro st s
    rw [List.foldl_cons]
    obtain ⟨hc, hm⟩ := get_router_dpids_spawn_spec st v d
    obtain ⟨ih1, ih2⟩ := ih (get_router_dpids st v).1 (s ++ (get_router_dpids st v).2)
    constructor
    · intro hd
      have hz : (get_router_dpids st v).2.count d = 0 := by rw [hc]; simp [hd]
      have hb : d ∈ (get_router_dpids st v).1.bootstrapped := hm.mpr (Or.inl hd)
      have := ih1 hb
      rw [List.count_append, hz] at this
      simpa using this
    · by_cases hd : d ∈ st.bootstrapped
      · have hz : (get_router_dpids st v).2.count d = 0 := by rw [hc]; simp [hd]
        have hb : d ∈ (get_router_dpids st v).1.bootstrapped := hm.mpr (Or.inl hd)
        have := ih1 hb
        rw [List.count_append, hz] at this
        simp [hd, this]
      · by_cases hin : d ∈ sortNat (scan_switches v).2
        · have hz : (get_router_dpids st v).2.count d = 1 := by rw [hc]; simp [hd, hin]
          have hb : d ∈ (get_router_dpids st v).1.bootstrapped := hm.mpr (Or.inr hin)
          have := ih1 hb
          rw [List.count_append, hz] at this
          simp [hd, this]
        · have hz : (get_router_dpids st v).2.count d = 0 := by rw [hc]; simp [hd, hin]
          have := ih2
          rw [List.count_append, hz] at this
          calc (views.foldl (fun acc v =>
                  let r := get_router_dpids acc.1 v
                  (r.1, acc.2 ++ r.2)) ((get_router_dpids st v).1,
                    s ++ (get_router_dpids st v).2)).2.count d
              ≤ s.count d + 0 +
                (if d ∈ (get_router_dpids st v).1.bootstrapped then 0 else 1) := this
            _ ≤ s.count d + (if d ∈ st.bootstrapped then 0 else 1) := by
                simp only [hd, if_false, Nat.add_zero]
                by_cases hb : d ∈ (get_router_dpids st v).1.bootstrapped <;> simp [hb]

/-- Claim **C8**: over any sequence of `get_router_dpids` invocations and
whatever switch sets they observe, the bootstrap task for each router
DPID is spawned at most once, and a DPID already recorded in
`_bootstrapped` at the start is never spawned at all. -/
theorem C8_bootstrap_spawned_at_most_once (st : ClassState) (views : List TopoView)
    (d : Nat) :
    (run_classifications st views).2.count d ≤ 1 ∧
      (d ∈ st.bootstrapped → (run_classifications st views).2.count d = 0) := by
  obtain ⟨h1, h2⟩ := run_fold_count d views st []
  constructor
  · refine le_trans h2 ?_
    by_cases hd : d ∈ st.bootstrapped <;> simp [hd]
  · intro hd
    simpa using h1 hd

/-- The concrete environment of the C8 witness: a topology answer whose
switch 1 carries a `vxlan0` port. -/
def c8_view : TopoView :=
  { sws := ["1"],
    portdesc := [(1, [{ name := "vxlan0", port_no := some 10, hw_addr := none }])] }

/-- The concrete initial state of the C8 witness: DPID 2 already
bootstrapped. -/
def c8_state : ClassState :=
  { all_dpids := [], router_dpids := [], router_names := [], bootstrapped := [2] }

/-- Claim **C8** (witness): two classification runs both reporting router 1
spawn its bootstrap at most once in total; DPID 2 recorded as
bootstrapped beforehand is never spawned. -/
theorem C8_witness :
    ((run_classifications c8_state [c8_view, c8_view]).2.count 1 ≤ 1 ∧
      (2 ∈ c8_state.bootstrapped →
        (run_classifications c8_state [c8_view, c8_view]).2.count 2 = 0)) ∧
      2 ∈ c8_state.bootstrapped := by
  refine ⟨⟨(C8_bootstrap_spawned_at_most_once c8_state [c8_view, c8_view] 1).1, ?_⟩, ?_⟩
  · exact (C8_bootstrap_spawned_at_most_once c8_state [c8_view, c8_view] 2).2
  · decide

/-- Shape of every flow-mod emitted by `program_policy_rules`: an ALLOW
rule for some accepted pair, or one of the two cross-LAN DROP rules. -/
theorem program_policy_rules_flow_shape (st : PolicyState) (dpids : Option (List Nat))
    (d : Nat) (fm : FlowMod)
    (h : OFMsg.flowMod d fm ∈ program_policy_rules st dpids) :
    (∃ pr, fm = allow_flow pr) ∨ fm = drop12_flow ∨ fm = drop21_flow := by
  unfold program_policy_rules at h
  set targets := (match dpids with
    | some l => if l.isEmpty then default_targets st else l
    | none => default_targets st) with ht
  by_cases he : targets.isEmpty
  · rw [if_pos he] at h
    simp at h
  · rw [if_neg he] at h
    rw [List.mem_flatMap] at h
    obtain ⟨dp, _, hmem⟩ := h
    unfold policy_msgs_for_dpid at hmem
    by_cases hdp : dp ∈ st.datapaths
    · rw [if_pos hdp] at hmem
      rcases List.mem_cons.mp hmem with heq | hmem
      · exact absurd heq (by simp)
      · by_cases hrt : dp ∈ st.router_dpids
        · rw [if_pos hrt] at hmem
          simp at hmem
        · rw [if_neg hrt] at hmem
          rcases List.mem_append.mp hmem with hmem | hmem
          · obtain ⟨pr, _, heq⟩ := List.mem_map.mp hmem
            injection heq with _ h2
            exact Or.inl ⟨pr, h2.symm⟩
          · rcases List.mem_cons.mp hmem with heq | hmem
            · injection heq with _ h2
              exact Or.inr (Or.inl h2)
            · rcases List.mem_cons.mp hmem with heq | hmem
              · injection heq with _ h2
                exact Or.inr (Or.inr h2)
              · simp at hmem
    · rw [if_neg hdp] at hmem
      simp at hmem

/-- Claim **C1**: for every switch and every allowed-pairs set (empty or not),
among the rules installed by `program_policy_rules` every ALLOW rule's
priority (80) is strictly greater than every DROP rule's priority (70),
which is strictly greater than the base table-miss priority
(`PRIO_MISS = 0`, the priority `switch_features_handler` gives
`table_miss_flow`). -/
theorem C1_policy_priority_ordering (st : PolicyState) (dpids : Option (List Nat))
    (d1 d2 : Nat) (m1 m2 : FlowMod) (b : Bool)
    (h1 : OFMsg.flowMod d1 m1 ∈ program_policy_rules st dpids)
    (h2 : OFMsg.flowMod d2 m2 ∈ program_policy_rules st dpids)
    (hA : isPolicyAllow m1 = true) (hD : isPolicyDrop m2 = true) :
    m2.priority < m1.priority ∧ (table_miss_flow b).priority < m2.priority ∧
      PRIO_MISS < m2.priority := by
  have s1 := program_policy_rules_flow_shape st dpids d1 m1 h1
  have s2 := program_policy_rules_flow_shape st dpids d2 m2 h2
  have hm1 : m1.priority = 80 := by
    rcases s1 with ⟨pr, rfl⟩ | rfl | rfl
    · rfl
    · exact absurd hA (by decide)
    · exact absurd hA (by decide)
  have hm2 : m2.priority = 70 := by
    rcases s2 with ⟨pr, rfl⟩ | rfl | rfl
    · exact absurd hD (by simp [isPolicyDrop, allow_flow, add_flow])
    · rfl
    · rfl
  rw [hm1, hm2]
  cases b <;> exact ⟨by decide, by decide, by decide⟩

/-- The concrete state of the C1 witness: one access switch (DPID 1)
with a live datapath and one cross-LAN allowed pair. -/
def c1_state : PolicyState :=
  { allowed_pairs := [["10.0.1.5", "10.0.2.7"]], router_dpids := [],
    all_dpids := [1], datapaths := [1] }

/-- Claim **C1** (witness): with one allowed pair on one access switch, the
installed ALLOW rule outranks the installed DROP rule, which outranks the
table-miss priority. -/
theorem C1_witness :
    drop12_flow.priority < (allow_flow ("10.0.1.5", "10.0.2.7")).priority ∧
      (table_miss_flow false).priority < drop12_flow.priority ∧
      PRIO_MISS < drop12_flow.priority :=
  C1_policy_priority_ordering c1_state none 1 1
    (allow_flow ("10.0.1.5", "10.0.2.7")) drop12_flow false
    (by decide) (by decide) (by decide) (by decide)

/-- Claim **C2** (witness): a cross-LAN pair and a same-LAN pair are
accepted; a pair leaving both prefixes and a malformed address are
rejected. -/
theorem C2_witness :
    _both_in_lans "10.0.1.5" "10.0.2.7" = true ∧
      _both_in_lans "10.0.1.5" "10.0.1.6" = true ∧
      _both_in_lans "10.0.1.5" "10.0.3.7" = false ∧
      _both_in_lans "10.0.1.5" "bogus" = false := by
  refine ⟨?_, ?_, by decide, by decide⟩
  · exact (C2_pair_filter_iff "10.0.1.5" "10.0.2.7").mpr
      ⟨⟨0x0A000105, by decide, Or.inl (by decide)⟩,
       ⟨0x0A000207, by decide, Or.inr (by decide)⟩⟩
  · exact (C2_pair_filter_iff "10.0.1.5" "10.0.1.6").mpr
      ⟨⟨0x0A000105, by decide, Or.inl (by decide)⟩,
       ⟨0x0A000106, by decide, Or.inl (by decide)⟩⟩
